import Mathlib

/-!
Shallow embedding of the TLS client transport of libnetconf2
(`src/session_client_tls.c`): the certificate-revocation verification
callback, the trust-configuration setters with their dirty flags, the
context/store rebuild routine, and the session-establishment entry points.
External library effects (OpenSSL calls, allocation, sockets) are modelled
by explicit oracles so that the control flow of the C source is reproduced
exactly.
-/

namespace LibnetconfTls

/-- X.509 error codes set by the callback via `X509_STORE_CTX_set_error`. -/
inductive VerifyError where
  | crlSignatureFailure   -- X509_V_ERR_CRL_SIGNATURE_FAILURE
  | crlNextUpdateField    -- X509_V_ERR_ERROR_IN_CRL_NEXT_UPDATE_FIELD
  | crlHasExpired         -- X509_V_ERR_CRL_HAS_EXPIRED
  | certRevoked           -- X509_V_ERR_CERT_REVOKED
  deriving DecidableEq, Repr

/-- The certificate currently under inspection: names are abstracted to
natural numbers, the serial to an integer, and the public key to a key
identifier consumed by CRL signature verification. -/
structure X509 where
  subject : Nat
  issuer : Nat
  serialNumber : Int
  pubkey : Nat

/-- A CRL as the callback observes it: the issuer name under which the
store indexes it, the optional nextUpdate time, the revoked serial list,
and signature verification as a function of the public key offered. -/
structure X509_CRL where
  issuer : Nat
  nextUpdate : Option Int
  revokedSerials : List Int
  verifySig : Nat → Bool

/-- Model of `X509_STORE_get_by_subject` on CRLs: the first CRL in
the store indexed under `name` (for CRLs the index key is their issuer). -/
def storeGetCrl (store : List X509_CRL) (name : Nat) : Option X509_CRL :=
  store.find? (fun c => c.issuer == name)

/-- Observable outcome of one callback invocation: the C return value
(true = 1 accept, false = 0 reject), the error code stored in the
verification context, how many store lookups ran, and whether the
`Certificate revoked` security log event was emitted. -/
structure VerifyOutcome where
  ret : Bool
  err : Option VerifyError
  lookups : Nat
  loggedRevoked : Bool
  deriving DecidableEq, Repr

/-- Lines 110-130 of the source: look up a CRL under the certificate
issuer and scan its revoked entries for the certificate serial number. -/
def issuerScan (store : List X509_CRL) (cert : X509) (lk : Nat) : VerifyOutcome :=
  match storeGetCrl store cert.issuer with
  | some crl =>
      if crl.revokedSerials.contains cert.serialNumber then
        ⟨false, some .certRevoked, lk, true⟩
      else
        ⟨true, none, lk, false⟩
  | none => ⟨true, none, lk, false⟩

/-- Model of `tlsauth_verify_callback` (lines 43-133): propagate a pre-verification
failure, accept when no CRL store is configured, validate a
subject-matching CRL (signature, nextUpdate presence, expiry, in that
order), then scan the issuer-matching CRL for the serial number.
`now` stands for the current time consulted by `X509_cmp_current_time`. -/
def tlsauth_verify_callback (preverify_ok : Bool)
    (crl_store : Option (List X509_CRL)) (cert : X509) (now : Int) :
    VerifyOutcome :=
  if !preverify_ok then ⟨false, none, 0, false⟩
  else
    match crl_store with
    | none => ⟨true, none, 0, false⟩
    | some store =>
        match storeGetCrl store cert.subject with
        | some crl =>
            if !(crl.verifySig cert.pubkey) then
              ⟨false, some .crlSignatureFailure, 1, false⟩
            else
              match crl.nextUpdate with
              | none => ⟨false, some .crlNextUpdateField, 1, false⟩
              | some nu =>
                  if nu < now then ⟨false, some .crlHasExpired, 1, false⟩
                  else issuerScan store cert 2
        | none => issuerScan store cert 2

/-- The per-role option block `struct nc_client_tls_opts`. Paths are
optional strings; the derived `tls_ctx` and `crl_store` pointers are
abstracted to presence booleans since the configuration logic only tests
them against NULL. -/
structure nc_client_tls_opts where
  cert_path : Option String
  key_path : Option String
  ca_file : Option String
  ca_dir : Option String
  tls_ctx : Bool
  tls_ctx_change : Bool
  crl_file : Option String
  crl_dir : Option String
  crl_store : Bool
  crl_store_change : Bool
  deriving DecidableEq, Repr

/-- Model of `strdup` under an allocation oracle: each call consumes one flag from
the list (an exhausted list means success). -/
def strdup (s : String) (a : List Bool) : Option String × List Bool :=
  match a with
  | [] => (some s, [])
  | b :: rest => (if b then some s else none, rest)

/-- Model of `_nc_client_tls_set_cert_key_paths` (lines 156-190), reproduced with
its control flow intact: the ERRARG guard, the unconditional frees of both
prior paths, the two strdup calls, and the source slip at line 179 that
re-checks `cert_path` instead of `key_path` after the key strdup. -/
def set_cert_key_paths (client_cert client_key : Option String)
    (a : List Bool) (opts : nc_client_tls_opts) : Int × nc_client_tls_opts :=
  match client_cert with
  | none => (-1, opts)
  | some cc =>
      let opts := { opts with cert_path := none, key_path := none }
      let (d, a) := strdup cc a
      match d with
      | none => (-1, opts)
      | some p =>
          let opts := { opts with cert_path := some p }
          match client_key with
          | some ck =>
              let (d2, _) := strdup ck a
              let opts := { opts with key_path := d2 }
              if opts.cert_path.isNone then (-1, opts)
              else (0, { opts with tls_ctx_change := true })
          | none =>
              (0, { opts with key_path := none, tls_ctx_change := true })

/-- Second half of the CA setter: the `if (ca_dir)` strdup block followed
by raising `tls_ctx_change` and returning 0. -/
def setCaDirStep (ca_dir : Option String) (a : List Bool)
    (opts : nc_client_tls_opts) : Int × nc_client_tls_opts :=
  match ca_dir with
  | some dd =>
      let (d2, _) := strdup dd a
      match d2 with
      | none => (-1, opts)
      | some p => (0, { opts with ca_dir := some p, tls_ctx_change := true })
  | none => (0, { opts with tls_ctx_change := true })

/-- Model of `_nc_client_tls_set_trusted_ca_paths` (lines 232-266): ERRARG when both
inputs are absent, free both prior paths, strdup each present input in
order (failing with -1 on allocation failure), raise `tls_ctx_change`. -/
def set_trusted_ca_paths (ca_file ca_dir : Option String)
    (a : List Bool) (opts : nc_client_tls_opts) : Int × nc_client_tls_opts :=
  if ca_file.isNone && ca_dir.isNone then (-1, opts)
  else
    let opts := { opts with ca_file := none, ca_dir := none }
    match ca_file with
    | some f =>
        let (d, a) := strdup f a
        match d with
        | none => (-1, opts)
        | some p => setCaDirStep ca_dir a { opts with ca_file := some p }
    | none => setCaDirStep ca_dir a opts

/-- Second half of the CRL setter: the `if (crl_dir)` strdup block followed
by raising `crl_store_change` and returning 0. -/
def setCrlDirStep (crl_dir : Option String) (a : List Bool)
    (opts : nc_client_tls_opts) : Int × nc_client_tls_opts :=
  match crl_dir with
  | some dd =>
      let (d2, _) := strdup dd a
      match d2 with
      | none => (-1, opts)
      | some p => (0, { opts with crl_dir := some p, crl_store_change := true })
  | none => (0, { opts with crl_store_change := true })

/-- Model of `_nc_client_tls_set_crl_paths` (lines 308-342): same shape as the CA
setter but over the CRL paths, raising `crl_store_change`. -/
def set_crl_paths (crl_file crl_dir : Option String)
    (a : List Bool) (opts : nc_client_tls_opts) : Int × nc_client_tls_opts :=
  if crl_file.isNone && crl_dir.isNone then (-1, opts)
  else
    let opts := { opts with crl_file := none, crl_dir := none }
    match crl_file with
    | some f =>
        let (d, a) := strdup f a
        match d with
        | none => (-1, opts)
        | some p => setCrlDirStep crl_dir a { opts with crl_file := some p }
    | none => setCrlDirStep crl_dir a opts

/-- Success flags for the external OpenSSL calls made by
`nc_client_tls_update_opts`. -/
structure UpdateEnv where
  ctxNewOk : Bool        -- SSL_CTX_new
  certLoadOk : Bool      -- SSL_CTX_use_certificate_file
  keyLoadOk : Bool       -- SSL_CTX_use_PrivateKey_file
  caLoadOk : Bool        -- SSL_CTX_load_verify_locations
  storeNewOk : Bool      -- X509_STORE_new
  lookupFileOk : Bool    -- X509_STORE_add_lookup(file)
  addFileOk : Bool       -- X509_LOOKUP_add_dir on crl_file
  lookupDirOk : Bool     -- X509_STORE_add_lookup(hash_dir)
  addDirOk : Bool        -- X509_LOOKUP_add_dir on crl_dir
  deriving DecidableEq, Repr

/-- Result of one `nc_client_tls_update_opts` call: its return value, the
updated options, and whether each rebuild branch ran (discarding and
reconstructing the SSL context respectively the CRL store). -/
structure UpdateResult where
  ret : Int
  opts : nc_client_tls_opts
  ctxRebuilt : Bool
  storeRebuilt : Bool
  deriving DecidableEq, Repr

/-- Lines 435-469 of the source: rebuild the CRL store when
`crl_store_change` is set, or when no store exists yet but some CRL path
is configured; register the file and hashed-directory lookups; the flag is
never cleared. -/
def updateCrlPhase (env : UpdateEnv) (opts : nc_client_tls_opts)
    (ctxR : Bool) : UpdateResult :=
  if opts.crl_store_change ||
      (!opts.crl_store && (opts.crl_file.isSome || opts.crl_dir.isSome)) then
    let opts := { opts with crl_store := false }
    if !env.storeNewOk then ⟨-1, opts, ctxR, true⟩
    else
      let opts := { opts with crl_store := true }
      if opts.crl_file.isSome && !env.lookupFileOk then ⟨-1, opts, ctxR, true⟩
      else if opts.crl_file.isSome && !env.addFileOk then ⟨-1, opts, ctxR, true⟩
      else if opts.crl_dir.isSome && !env.lookupDirOk then ⟨-1, opts, ctxR, true⟩
      else if opts.crl_dir.isSome && !env.addDirOk then ⟨-1, opts, ctxR, true⟩
      else ⟨0, opts, ctxR, true⟩
  else ⟨0, opts, ctxR, false⟩

/-- Model of `nc_client_tls_update_opts` (lines 396-470): rebuild the SSL context
when it is absent or `tls_ctx_change` is set (create a TLS 1.2 context,
install the verification callback, load certificate, private key and trust
anchors, failing with -1 on any step), then run the CRL-store phase.
Neither `tls_ctx_change` nor `crl_store_change` is ever cleared. -/
def nc_client_tls_update_opts (env : UpdateEnv)
    (opts : nc_client_tls_opts) : UpdateResult :=
  if !opts.tls_ctx || opts.tls_ctx_change then
    let opts := { opts with tls_ctx := false }
    if !env.ctxNewOk then ⟨-1, opts, true, false⟩
    else
      let opts := { opts with tls_ctx := true }
      if !env.certLoadOk then ⟨-1, opts, true, false⟩
      else if !env.keyLoadOk then ⟨-1, opts, true, false⟩
      else if !env.caLoadOk then ⟨-1, opts, true, false⟩
      else updateCrlPhase env opts true
  else updateCrlPhase env opts false

/-- Session status values relevant to the modelled flow. -/
inductive NC_STATUS where
  | starting
  | running
  deriving DecidableEq, Repr

/-- The observable part of a fully established `struct nc_session`. -/
structure nc_session where
  status : NC_STATUS
  host : String
  port : Nat
  username : String
  deriving DecidableEq, Repr

/-- Success flags for the external steps of `nc_connect_libssl`. -/
structure LibsslEnv where
  sessionAllocOk : Bool  -- calloc of the session
  lockAllocOk : Bool     -- malloc of ti_lock
  handshakeOk : Bool     -- nc_handshake
  ctxFillOk : Bool       -- nc_ctx_check_and_fill
  deriving DecidableEq, Repr

/-- Which observable effects `nc_connect_libssl` performed. -/
structure LibsslTrace where
  sessionConstructed : Bool  -- session state was allocated and filled
  handshakeAttempted : Bool  -- nc_handshake was invoked
  deriving DecidableEq, Repr

/-- An externally supplied `SSL *` handle: only its NULL-ness and
`SSL_is_init_finished` status matter to the entry check. -/
structure TlsHandle where
  initFinished : Bool
  deriving DecidableEq, Repr

/-- Model of `nc_connect_libssl` (lines 578-632): refuse a NULL or not yet fully
connected handle up front, otherwise build the session and run the
NETCONF handshake, returning NULL on any failure. -/
def nc_connect_libssl (tls : Option TlsHandle) (env : LibsslEnv) :
    Option nc_session × LibsslTrace :=
  match tls with
  | none => (none, ⟨false, false⟩)
  | some t =>
      if !t.initFinished then (none, ⟨false, false⟩)
      else if !env.sessionAllocOk then (none, ⟨false, false⟩)
      else if !env.lockAllocOk then (none, ⟨true, false⟩)
      else if !env.handshakeOk then (none, ⟨true, true⟩)
      else if !env.ctxFillOk then (none, ⟨true, true⟩)
      else (some ⟨.running, "", 0, ""⟩, ⟨true, true⟩)

/-- Success flags and observations for the external steps of
`nc_connect_tls` beyond the shared update routine. -/
structure ConnectEnv where
  updateEnv : UpdateEnv
  sessionAllocOk : Bool  -- calloc of the session
  lockAllocOk : Bool     -- malloc of ti_lock
  sslNewOk : Bool        -- SSL_new
  sockOk : Bool          -- nc_sock_connect
  connectOk : Bool       -- SSL_connect == 1
  verifyResult : Int     -- SSL_get_verify_result (0 = X509_V_OK)
  handshakeOk : Bool     -- nc_handshake
  ctxFillOk : Bool       -- nc_ctx_check_and_fill
  deriving DecidableEq, Repr

/-- Which observable effects `nc_connect_tls` performed. -/
structure ConnectTrace where
  updateCalled : Bool    -- nc_client_tls_update_opts ran
  sockAttempted : Bool   -- nc_sock_connect was invoked (network io)
  warned : Bool          -- WRN log for a non-OK verification result
  deriving DecidableEq, Repr

/-- Default NETCONF-over-TLS port used when the caller passes 0. -/
def NC_PORT_TLS : Nat := 6513

/-- Model of `nc_connect_tls` (lines 472-576): require a certificate path and at
least one CA location before anything else, default host and port, run the
update routine, build the session, connect the socket, run the TLS
handshake, log (only) the aggregate verification verdict, then perform the
NETCONF handshake. -/
def nc_connect_tls (env : ConnectEnv) (host : Option String) (port : Nat)
    (opts : nc_client_tls_opts) :
    Option nc_session × nc_client_tls_opts × ConnectTrace :=
  if opts.cert_path.isNone || (opts.ca_file.isNone && opts.ca_dir.isNone) then
    (none, opts, ⟨false, false, false⟩)
  else
    let host := match host with
      | none => "localhost"
      | some h => if h = "" then "localhost" else h
    let port := if port = 0 then NC_PORT_TLS else port
    let u := nc_client_tls_update_opts env.updateEnv opts
    if u.ret != 0 then (none, u.opts, ⟨true, false, false⟩)
    else if !env.sessionAllocOk then (none, u.opts, ⟨true, false, false⟩)
    else if !env.lockAllocOk then (none, u.opts, ⟨true, false, false⟩)
    else if !env.sslNewOk then (none, u.opts, ⟨true, false, false⟩)
    else if !env.sockOk then (none, u.opts, ⟨true, true, false⟩)
    else if !env.connectOk then (none, u.opts, ⟨true, true, false⟩)
    else
      let warned := env.verifyResult != 0
      if !env.handshakeOk then (none, u.opts, ⟨true, true, warned⟩)
      else if !env.ctxFillOk then (none, u.opts, ⟨true, true, warned⟩)
      else
        (some ⟨.running, host, port, "certificate-based"⟩, u.opts,
          ⟨true, true, warned⟩)

/-- Model of `nc_accept_callhome_tls_sock` (lines 634-684): run the update routine
on the call-home options, create the TLS session on the supplied socket,
run the TLS handshake, log (only) the aggregate verification verdict, then
delegate to `nc_connect_libssl` and stamp host, port and username. -/
def nc_accept_callhome_tls_sock (env : ConnectEnv) (host : String)
    (port : Nat) (opts : nc_client_tls_opts) :
    Option nc_session × nc_client_tls_opts × ConnectTrace :=
  let u := nc_client_tls_update_opts env.updateEnv opts
  if u.ret != 0 then (none, u.opts, ⟨true, false, false⟩)
  else if !env.sslNewOk then (none, u.opts, ⟨true, false, false⟩)
  else if !env.connectOk then (none, u.opts, ⟨true, false, false⟩)
  else
    let warned := env.verifyResult != 0
    match nc_connect_libssl (some ⟨true⟩)
        ⟨env.sessionAllocOk, env.lockAllocOk, env.handshakeOk, env.ctxFillOk⟩ with
    | (some s, _) =>
        (some { s with host := host, port := port,
                       username := "certificate-based" }, u.opts,
          ⟨true, false, warned⟩)
    | (none, _) => (none, u.opts, ⟨true, false, warned⟩)

/-- C5: for every certificate that passed pre-verification, when no CRL
store is configured the verification callback accepts (returns 1) without
performing any store lookup, setting no error and logging nothing. -/
theorem no_crl_store_accepts_without_lookup (cert : X509) (now : Int) :
    tlsauth_verify_callback true none cert now = ⟨true, none, 0, false⟩ :=
  rfl

/-- C9: calling a path setter with wholly absent required input (no
certificate path; both CA paths absent; both CRL paths absent) returns the
InvalidArgument failure -1 and leaves the whole option block, dirty flags
included, exactly as it was. -/
theorem setter_absent_input_invalid_argument :
    (∀ (opts : nc_client_tls_opts) (k : Option String) (a : List Bool),
      set_cert_key_paths none k a opts = (-1, opts)) ∧
    (∀ (opts : nc_client_tls_opts) (a : List Bool),
      set_trusted_ca_paths none none a opts = (-1, opts)) ∧
    (∀ (opts : nc_client_tls_opts) (a : List Bool),
      set_crl_paths none none a opts = (-1, opts)) :=
  ⟨fun _ _ _ => rfl, fun _ _ => rfl, fun _ _ => rfl⟩

/-- C3: when a subject-matching CRL is found, the callback validates it in
order: a failing signature yields CrlSignatureInvalid, then a missing
nextUpdate yields CrlFieldMissing, then an expired nextUpdate yields
CrlExpired, and only a CRL passing all three checks lets verification
proceed to the issuer-CRL revocation scan. -/
theorem subject_crl_checks_in_order (store : List X509_CRL) (cert : X509)
    (now : Int) (crl : X509_CRL)
    (hfind : storeGetCrl store cert.subject = some crl) :
    (crl.verifySig cert.pubkey = false →
      tlsauth_verify_callback true (some store) cert now =
        ⟨false, some .crlSignatureFailure, 1, false⟩) ∧
    (crl.verifySig cert.pubkey = true → crl.nextUpdate = none →
      tlsauth_verify_callback true (some store) cert now =
        ⟨false, some .crlNextUpdateField, 1, false⟩) ∧
    (∀ nu : Int, crl.verifySig cert.pubkey = true → crl.nextUpdate = some nu →
      nu < now →
      tlsauth_verify_callback true (some store) cert now =
        ⟨false, some .crlHasExpired, 1, false⟩) ∧
    (∀ nu : Int, crl.verifySig cert.pubkey = true → crl.nextUpdate = some nu →
      ¬nu < now →
      tlsauth_verify_callback true (some store) cert now =
        issuerScan store cert 2) := by
  refine ⟨?_, ?_, ?_, ?_⟩
  · intro hsig
    simp [tlsauth_verify_callback, hfind, hsig]
  · intro hsig hnu
    simp [tlsauth_verify_callback, hfind, hsig, hnu]
  · intro nu hsig hnu hlt
    simp [tlsauth_verify_callback, hfind, hsig, hnu, hlt]
  · intro nu hsig hnu hlt
    simp [tlsauth_verify_callback, hfind, hsig, hnu, hlt]

/-- Witness for C3 at a concrete store and certificate: a subject-matching
CRL whose signature fails verification makes the callback reject with
CrlSignatureInvalid. -/
theorem subject_crl_checks_in_order_witness :
    tlsauth_verify_callback true
        (some [⟨5, none, [], fun _ => false⟩]) ⟨5, 7, 1, 0⟩ 0 =
      ⟨false, some .crlSignatureFailure, 1, false⟩ :=
  (subject_crl_checks_in_order [⟨5, none, [], fun _ => false⟩]
    ⟨5, 7, 1, 0⟩ 0 ⟨5, none, [], fun _ => false⟩ rfl).1 rfl

/-- C10: the externally-supplied-channel entry point returns no session
for an absent handle or one whose handshake is not finished, constructing
no session state and attempting no NETCONF handshake. -/
theorem connect_libssl_requires_finished_handshake
    (tls : Option TlsHandle) (env : LibsslEnv)
    (h : tls = none ∨ ∃ t, tls = some t ∧ t.initFinished = false) :
    nc_connect_libssl tls env = (none, ⟨false, false⟩) := by
  rcases h with h | ⟨t, ht, hf⟩
  · rw [h]; rfl
  · rw [ht]; simp [nc_connect_libssl, hf]

/-- Witness for C10: a handle with an unfinished handshake is refused. -/
theorem connect_libssl_requires_finished_handshake_witness :
    nc_connect_libssl (some ⟨false⟩) ⟨true, true, true, true⟩ =
      (none, ⟨false, false⟩) :=
  connect_libssl_requires_finished_handshake (some ⟨false⟩)
    ⟨true, true, true, true⟩ (Or.inr ⟨⟨false⟩, rfl, rfl⟩)

/-- C8: when the certificate path is absent, or both CA locations are
absent, connect-as-client fails immediately with no session, calling
neither the update routine nor the socket layer and leaving the options
untouched. -/
theorem connect_tls_requires_cert_and_ca (env : ConnectEnv)
    (host : Option String) (port : Nat) (opts : nc_client_tls_opts)
    (h : opts.cert_path = none ∨ (opts.ca_file = none ∧ opts.ca_dir = none)) :
    nc_connect_tls env host port opts = (none, opts, ⟨false, false, false⟩) := by
  rcases h with h | ⟨h1, h2⟩
  · simp [nc_connect_tls, h]
  · simp [nc_connect_tls, h1, h2]

/-- Witness for C8 at a configuration missing the certificate path. -/
theorem connect_tls_requires_cert_and_ca_witness :
    nc_connect_tls
        ⟨⟨true, true, true, true, true, true, true, true, true⟩,
          true, true, true, true, true, 0, true, true⟩
        none 0
        ⟨none, none, some "ca.pem", none, false, false, none, none,
          false, false⟩ =
      (none,
        ⟨none, none, some "ca.pem", none, false, false, none, none,
          false, false⟩,
        ⟨false, false, false⟩) :=
  connect_tls_requires_cert_and_ca _ none 0 _ (Or.inl rfl)

/-- A dirty configuration with certificate, CA and CRL file paths set,
used to exercise the update routine. -/
def dirtyOpts : nc_client_tls_opts :=
  ⟨some "client.pem", none, some "ca.pem", none, false, true,
    some "crl.pem", none, false, true⟩

/-- An environment in which every external OpenSSL call succeeds. -/
def allOkUpdateEnv : UpdateEnv :=
  ⟨true, true, true, true, true, true, true, true, true⟩

/-- C1: the update routine never clears the dirty flags. After a fully
successful call on a dirty configuration the call returns 0 but both
`tls_ctx_change` and `crl_store_change` are still set, so a second call
with no configuration change discards and rebuilds both the SSL context
and the CRL store again. -/
theorem update_opts_never_clears_dirty_flags :
    (nc_client_tls_update_opts allOkUpdateEnv dirtyOpts).ret = 0 ∧
    (nc_client_tls_update_opts allOkUpdateEnv dirtyOpts).opts.tls_ctx_change
      = true ∧
    (nc_client_tls_update_opts allOkUpdateEnv dirtyOpts).opts.crl_store_change
      = true ∧
    (nc_client_tls_update_opts allOkUpdateEnv
        (nc_client_tls_update_opts allOkUpdateEnv dirtyOpts).opts).ctxRebuilt
      = true ∧
    (nc_client_tls_update_opts allOkUpdateEnv
        (nc_client_tls_update_opts allOkUpdateEnv dirtyOpts).opts).storeRebuilt
      = true := by
  decide

/-- The certificate used for the C2 analysis: subject 1, issuer 2,
serial 5, public key 0. -/
def revokedCert : X509 := ⟨1, 2, 5, 0⟩

/-- A store holding a subject-matching CRL whose signature fails to
verify, together with an issuer-matching CRL that lists serial 5. -/
def badSubjectCrlStore : List X509_CRL :=
  [⟨1, some 10, [], fun _ => false⟩, ⟨2, some 10, [5], fun _ => true⟩]

/-- Counterexample to C2 as stated: the issuer-matching CRL lists the
serial number of the certificate, yet the callback does not reject with
CertificateRevoked and logs no revocation event, because the invalid
subject-matching CRL is rejected first with CrlSignatureInvalid. -/
theorem invalid_subject_crl_preempts_revocation_check :
    ((storeGetCrl badSubjectCrlStore revokedCert.issuer).elim false
      (fun c => c.revokedSerials.contains revokedCert.serialNumber)) = true ∧
    (tlsauth_verify_callback true (some badSubjectCrlStore) revokedCert 0).err
      ≠ some .certRevoked ∧
    (tlsauth_verify_callback true (some badSubjectCrlStore) revokedCert 0).err
      = some .crlSignatureFailure ∧
    (tlsauth_verify_callback true (some badSubjectCrlStore)
        revokedCert 0).loggedRevoked = false := by
  refine ⟨rfl, ?_, rfl, rfl⟩
  decide

/-- C2 amended: for a certificate whose issuer-matching CRL lists its
serial number, the callback rejects with CertificateRevoked and emits the
security log event, provided any subject-matching CRL present passes its
validity checks (absent, or valid signature with an unexpired nextUpdate);
an invalid subject-matching CRL is instead rejected earlier with the
corresponding CRL-validity error. -/
theorem issuer_crl_revocation_rejects_cert (store : List X509_CRL)
    (cert : X509) (now : Int) (icrl : X509_CRL)
    (hsubj : storeGetCrl store cert.subject = none ∨
      ∃ crl nu, storeGetCrl store cert.subject = some crl ∧
        crl.verifySig cert.pubkey = true ∧ crl.nextUpdate = some nu ∧
        ¬nu < now)
    (hiss : storeGetCrl store cert.issuer = some icrl)
    (hrev : icrl.revokedSerials.contains cert.serialNumber = true) :
    tlsauth_verify_callback true (some store) cert now =
      ⟨false, some .certRevoked, 2, true⟩ := by
  have hmem : cert.serialNumber ∈ icrl.revokedSerials := by
    simpa using hrev
  have hscan : issuerScan store cert 2 = ⟨false, some .certRevoked, 2, true⟩ := by
    simp [issuerScan, hiss, hmem]
  rcases hsubj with h | ⟨crl, nu, hfind, hsig, hnu, hlt⟩
  · simp [tlsauth_verify_callback, h, hscan]
  · simp [tlsauth_verify_callback, hfind, hsig, hnu, hlt, hscan]

/-- Witness for the amended C2: with no subject-matching CRL and an
issuer-matching CRL listing serial 5, the certificate is rejected as
revoked and the event is logged. -/
theorem issuer_crl_revocation_rejects_cert_witness :
    tlsauth_verify_callback true (some [⟨2, some 10, [5], fun _ => true⟩])
        revokedCert 0 = ⟨false, some .certRevoked, 2, true⟩ :=
  issuer_crl_revocation_rejects_cert [⟨2, some 10, [5], fun _ => true⟩]
    revokedCert 0 ⟨2, some 10, [5], fun _ => true⟩ (Or.inl rfl) rfl rfl

/-- A configuration holding a previously stored CA file path. -/
def priorCaOpts : nc_client_tls_opts :=
  ⟨none, none, some "old.pem", none, false, false, none, none, false, false⟩

/-- Counterexample to C4 as stated: when the strdup of the new CA file
fails, the setter does return the OutOfMemory failure -1, but the
previously stored CA file path is not left unmodified: it was already
freed, so the field comes back empty. -/
theorem setter_alloc_failure_modifies_prior_state :
    (set_trusted_ca_paths (some "new.pem") none [false] priorCaOpts).1 = -1 ∧
    (set_trusted_ca_paths (some "new.pem") none [false] priorCaOpts).2.ca_file
      ≠ priorCaOpts.ca_file ∧
    (set_trusted_ca_paths (some "new.pem") none [false] priorCaOpts).2.ca_file
      = none := by
  decide

/-- C4 amended: a failing strdup of the certificate path, or of any
present field of the CA and CRL setters, makes the setter return the
OutOfMemory failure -1; but the previously stored path values of the
attempted field are never preserved: both fields were freed before the
first allocation was attempted, so on a first-field failure they come back
cleared, and on a second-field failure the first field already holds the
new value. The one allocation failure that is not reported is the optional
key path of the cert/key setter (the source re-checks the certificate
field), where the setter returns success with an empty key path. All
fields of the other setters are untouched in every case. -/
theorem setter_alloc_failure_behavior :
    (∀ (opts : nc_client_tls_opts) (c : String) (k : Option String),
      set_cert_key_paths (some c) k [false] opts =
        (-1, { opts with cert_path := none, key_path := none })) ∧
    (∀ (opts : nc_client_tls_opts) (c k : String),
      set_cert_key_paths (some c) (some k) [true, false] opts =
        (0, { opts with cert_path := some c, key_path := none,
                        tls_ctx_change := true })) ∧
    (∀ (opts : nc_client_tls_opts) (f : String) (d : Option String),
      set_trusted_ca_paths (some f) d [false] opts =
        (-1, { opts with ca_file := none, ca_dir := none })) ∧
    (∀ (opts : nc_client_tls_opts) (d : String),
      set_trusted_ca_paths none (some d) [false] opts =
        (-1, { opts with ca_file := none, ca_dir := none })) ∧
    (∀ (opts : nc_client_tls_opts) (f d : String),
      set_trusted_ca_paths (some f) (some d) [true, false] opts =
        (-1, { opts with ca_file := some f, ca_dir := none })) ∧
    (∀ (opts : nc_client_tls_opts) (f : String) (d : Option String),
      set_crl_paths (some f) d [false] opts =
        (-1, { opts with crl_file := none, crl_dir := none })) ∧
    (∀ (opts : nc_client_tls_opts) (d : String),
      set_crl_paths none (some d) [false] opts =
        (-1, { opts with crl_file := none, crl_dir := none })) ∧
    (∀ (opts : nc_client_tls_opts) (f d : String),
      set_crl_paths (some f) (some d) [true, false] opts =
        (-1, { opts with crl_file := some f, crl_dir := none })) := by
  refine ⟨fun opts c k => rfl, fun opts c k => rfl, fun opts f d => rfl,
    fun opts d => rfl, fun opts f d => rfl, fun opts f d => rfl,
    fun opts d => rfl, fun opts f d => rfl⟩

/-- C6: in both entry points, when the TLS handshake itself succeeds a
non-OK aggregate post-handshake verification verdict does not abort the
session: the session is still established, and the verdict only produces
the warning log. -/
theorem nonok_verify_result_is_advisory :
    (∀ (env : ConnectEnv) (host : Option String) (port : Nat)
        (opts : nc_client_tls_opts),
      opts.cert_path.isNone = false →
      (opts.ca_file.isNone && opts.ca_dir.isNone) = false →
      (nc_client_tls_update_opts env.updateEnv opts).ret = 0 →
      env.sessionAllocOk = true → env.lockAllocOk = true →
      env.sslNewOk = true → env.sockOk = true → env.connectOk = true →
      env.handshakeOk = true → env.ctxFillOk = true →
      ((nc_connect_tls env host port opts).1.isSome = true ∧
        (env.verifyResult ≠ 0 →
          (nc_connect_tls env host port opts).2.2.warned = true))) ∧
    (∀ (env : ConnectEnv) (host : String) (port : Nat)
        (opts : nc_client_tls_opts),
      (nc_client_tls_update_opts env.updateEnv opts).ret = 0 →
      env.sslNewOk = true → env.connectOk = true →
      env.sessionAllocOk = true → env.lockAllocOk = true →
      env.handshakeOk = true → env.ctxFillOk = true →
      ((nc_accept_callhome_tls_sock env host port opts).1.isSome = true ∧
        (env.verifyResult ≠ 0 →
          (nc_accept_callhome_tls_sock env host port opts).2.2.warned =
            true))) := by
  constructor
  · intro env host port opts h1 h2 hu e1 e2 e3 e4 e5 e6 e7
    constructor
    · simp [nc_connect_tls, h1, h2, hu, e1, e2, e3, e4, e5, e6, e7]
    · intro hv
      simp [nc_connect_tls, h1, h2, hu, e1, e2, e3, e4, e5, e6, e7, hv]
  · intro env host port opts hu e1 e2 e3 e4 e5 e6
    constructor
    · simp [nc_accept_callhome_tls_sock, nc_connect_libssl, hu, e1, e2, e3,
        e4, e5, e6]
    · intro hv
      simp [nc_accept_callhome_tls_sock, nc_connect_libssl, hu, e1, e2, e3,
        e4, e5, e6, hv]

/-- A configuration whose derived context is already built and clean, with
no CRL paths, so the update routine succeeds without work. -/
def builtOpts : nc_client_tls_opts :=
  ⟨some "client.pem", none, some "ca.pem", none, true, false, none, none,
    false, false⟩

/-- An environment where every external step succeeds but the aggregate
verification verdict is non-OK (5 = X509_V_ERR_CERT_SIGNATURE_FAILURE). -/
def advisoryEnv : ConnectEnv :=
  ⟨allOkUpdateEnv, true, true, true, true, true, 5, true, true⟩

/-- Witness for C6: with a non-OK aggregate verdict both entry points
still establish the session and log the warning. -/
theorem nonok_verify_result_is_advisory_witness :
    ((nc_connect_tls advisoryEnv none 0 builtOpts).1.isSome = true ∧
      (nc_connect_tls advisoryEnv none 0 builtOpts).2.2.warned = true) ∧
    ((nc_accept_callhome_tls_sock advisoryEnv "srv" 6513 builtOpts).1.isSome
        = true ∧
      (nc_accept_callhome_tls_sock advisoryEnv "srv" 6513
          builtOpts).2.2.warned = true) := by
  have h := nonok_verify_result_is_advisory
  refine ⟨⟨(h.1 advisoryEnv none 0 builtOpts rfl rfl rfl rfl rfl rfl rfl rfl
      rfl rfl).1, (h.1 advisoryEnv none 0 builtOpts rfl rfl rfl rfl rfl rfl
      rfl rfl rfl rfl).2 (by decide)⟩,
    ⟨(h.2 advisoryEnv "srv" 6513 builtOpts rfl rfl rfl rfl rfl rfl rfl).1,
      (h.2 advisoryEnv "srv" 6513 builtOpts rfl rfl rfl rfl rfl rfl rfl).2
        (by decide)⟩⟩

/-- C7: every successful setter call raises exactly its own dirty flag.
The cert/key and CA setters raise `tls_ctx_change` and leave
`crl_store_change` untouched; the CRL setter raises `crl_store_change` and
leaves `tls_ctx_change` untouched; and no setter modifies the path fields
belonging to the other setters, nor the derived context or store. -/
theorem setter_dirty_flag_frame :
    (∀ (opts : nc_client_tls_opts) (c : String) (k : Option String)
        (a : List Bool),
      (set_cert_key_paths (some c) k a opts).1 = 0 →
      ((set_cert_key_paths (some c) k a opts).2.tls_ctx_change = true ∧
       (set_cert_key_paths (some c) k a opts).2.crl_store_change =
         opts.crl_store_change ∧
       (set_cert_key_paths (some c) k a opts).2.ca_file = opts.ca_file ∧
       (set_cert_key_paths (some c) k a opts).2.ca_dir = opts.ca_dir ∧
       (set_cert_key_paths (some c) k a opts).2.crl_file = opts.crl_file ∧
       (set_cert_key_paths (some c) k a opts).2.crl_dir = opts.crl_dir ∧
       (set_cert_key_paths (some c) k a opts).2.tls_ctx = opts.tls_ctx ∧
       (set_cert_key_paths (some c) k a opts).2.crl_store =
         opts.crl_store)) ∧
    (∀ (opts : nc_client_tls_opts) (f d : Option String) (a : List Bool),
      (set_trusted_ca_paths f d a opts).1 = 0 →
      ((set_trusted_ca_paths f d a opts).2.tls_ctx_change = true ∧
       (set_trusted_ca_paths f d a opts).2.crl_store_change =
         opts.crl_store_change ∧
       (set_trusted_ca_paths f d a opts).2.cert_path = opts.cert_path ∧
       (set_trusted_ca_paths f d a opts).2.key_path = opts.key_path ∧
       (set_trusted_ca_paths f d a opts).2.crl_file = opts.crl_file ∧
       (set_trusted_ca_paths f d a opts).2.crl_dir = opts.crl_dir ∧
       (set_trusted_ca_paths f d a opts).2.tls_ctx = opts.tls_ctx ∧
       (set_trusted_ca_paths f d a opts).2.crl_store = opts.crl_store)) ∧
    (∀ (opts : nc_client_tls_opts) (f d : Option String) (a : List Bool),
      (set_crl_paths f d a opts).1 = 0 →
      ((set_crl_paths f d a opts).2.crl_store_change = true ∧
       (set_crl_paths f d a opts).2.tls_ctx_change = opts.tls_ctx_change ∧
       (set_crl_paths f d a opts).2.cert_path = opts.cert_path ∧
       (set_crl_paths f d a opts).2.key_path = opts.key_path ∧
       (set_crl_paths f d a opts).2.ca_file = opts.ca_file ∧
       (set_crl_paths f d a opts).2.ca_dir = opts.ca_dir ∧
       (set_crl_paths f d a opts).2.tls_ctx = opts.tls_ctx ∧
       (set_crl_paths f d a opts).2.crl_store = opts.crl_store)) := by
  refine ⟨?_, ?_, ?_⟩
  · intro opts c k a h
    rcases hs : strdup c a with ⟨dd, a2⟩
    cases dd with
    | none => simp [set_cert_key_paths, hs] at h
    | some p =>
        cases k with
        | none => simp [set_cert_key_paths, hs]
        | some ck =>
            rcases hs2 : strdup ck a2 with ⟨d2, a3⟩
            simp [set_cert_key_paths, hs, hs2]
  · intro opts f d a h
    cases f with
    | none =>
        cases d with
        | none => simp [set_trusted_ca_paths] at h
        | some dd =>
            rcases hs : strdup dd a with ⟨d2, a2⟩
            cases d2 with
            | none => simp [set_trusted_ca_paths, setCaDirStep, hs] at h
            | some p => simp [set_trusted_ca_paths, setCaDirStep, hs]
    | some ff =>
        rcases hs : strdup ff a with ⟨d1, a2⟩
        cases d1 with
        | none => simp [set_trusted_ca_paths, hs] at h
        | some p =>
            cases d with
            | none => simp [set_trusted_ca_paths, setCaDirStep, hs]
            | some dd =>
                rcases hs2 : strdup dd a2 with ⟨d2, a3⟩
                cases d2 with
                | none =>
                    simp [set_trusted_ca_paths, setCaDirStep, hs, hs2] at h
                | some q =>
                    simp [set_trusted_ca_paths, setCaDirStep, hs, hs2]
  · intro opts f d a h
    cases f with
    | none =>
        cases d with
        | none => simp [set_crl_paths] at h
        | some dd =>
            rcases hs : strdup dd a with ⟨d2, a2⟩
            cases d2 with
            | none => simp [set_crl_paths, setCrlDirStep, hs] at h
            | some p => simp [set_crl_paths, setCrlDirStep, hs]
    | some ff =>
        rcases hs : strdup ff a with ⟨d1, a2⟩
        cases d1 with
        | none => simp [set_crl_paths, hs] at h
        | some p =>
            cases d with
            | none => simp [set_crl_paths, setCrlDirStep, hs]
            | some dd =>
                rcases hs2 : strdup dd a2 with ⟨d2, a3⟩
                cases d2 with
                | none => simp [set_crl_paths, setCrlDirStep, hs, hs2] at h
                | some q => simp [set_crl_paths, setCrlDirStep, hs, hs2]

/-- An empty configuration, all paths absent and all flags clear. -/
def zeroOpts : nc_client_tls_opts :=
  ⟨none, none, none, none, false, false, none, none, false, false⟩

/-- Witness for C7: successful concrete calls of each setter leave the
foreign dirty flag and the foreign path fields unchanged. -/
theorem setter_dirty_flag_frame_witness :
    ((set_cert_key_paths (some "c.pem") none [] zeroOpts).2.tls_ctx_change
        = true ∧
      (set_cert_key_paths (some "c.pem") none [] zeroOpts).2.crl_store_change
        = zeroOpts.crl_store_change) ∧
    ((set_trusted_ca_paths (some "ca.pem") none [] zeroOpts).2.tls_ctx_change
        = true ∧
      (set_trusted_ca_paths (some "ca.pem") none []
          zeroOpts).2.crl_store_change = zeroOpts.crl_store_change) ∧
    ((set_crl_paths (some "crl.pem") none [] zeroOpts).2.crl_store_change
        = true ∧
      (set_crl_paths (some "crl.pem") none [] zeroOpts).2.tls_ctx_change
        = zeroOpts.tls_ctx_change) := by
  have h := setter_dirty_flag_frame
  exact ⟨⟨(h.1 zeroOpts "c.pem" none [] rfl).1,
      (h.1 zeroOpts "c.pem" none [] rfl).2.1⟩,
    ⟨(h.2.1 zeroOpts (some "ca.pem") none [] rfl).1,
      (h.2.1 zeroOpts (some "ca.pem") none [] rfl).2.1⟩,
    ⟨(h.2.2 zeroOpts (some "crl.pem") none [] rfl).1,
      (h.2.2 zeroOpts (some "crl.pem") none [] rfl).2.1⟩⟩

end LibnetconfTls
